import Mathlib

/-!
Verification of the kairon_exercise market-monitoring pipeline.

Shallow embedding of the Python sources:
  * `src/kairon_exercise/exchange_interface/common_functions.py`
  * `src/kairon_exercise/exchange_interface/kucoin.py`
  * `src/kairon_exercise/exchange_interface/binance.py`
  * `src/kairon_exercise/database/db_functions.py`

Python floats are modelled as rationals (ℚ); every claim under study is an
exact-arithmetic statement about the same expressions the code evaluates.
Fallible Python code (division, dict subscription) is modelled in an
`Except PyError` monad: `Except.error` is a raised Python exception.
-/

set_option autoImplicit false

attribute [local semireducible] Rat.add Rat.mul Rat.inv Rat.sub

/-- Equality of `Except` values is decidable when both components are. -/
instance {e a : Type} [DecidableEq e] [DecidableEq a] : DecidableEq (Except e a)
  | .ok x, .ok y =>
    if h : x = y then .isTrue (by rw [h]) else .isFalse (by intro hc; cases hc; exact h rfl)
  | .ok _, .error _ => .isFalse (by intro hc; cases hc)
  | .error _, .ok _ => .isFalse (by intro hc; cases hc)
  | .error x, .error y =>
    if h : x = y then .isTrue (by rw [h]) else .isFalse (by intro hc; cases hc; exact h rfl)

namespace KaironExercise

/-- Python exceptions that the embedded code can raise. -/
inductive PyError where
  | zeroDivisionError
  | keyError (key : String)
  | valueError (message : String)
  deriving DecidableEq, Repr

/-- Python `/` on floats raises `ZeroDivisionError` on a zero denominator. -/
def pydiv (a b : ℚ) : Except PyError ℚ :=
  if b = 0 then .error .zeroDivisionError else .ok (a / b)

/-- `TickerData` dataclass (common_functions.py lines 12-17). -/
structure TickerData where
  best_ask : ℚ
  best_bid : ℚ
  deriving DecidableEq, Repr

/-- `TradeData` dataclass (common_functions.py lines 20-24). -/
structure TradeData where
  price : ℚ
  deriving DecidableEq, Repr

/-- `MarketData` dataclass (common_functions.py lines 27-33).
`ticker` is `None` or a `TickerData`; note that in Python a `TickerData(0, 0)`
instance is truthy, so only `None` makes `if not ticker_data` take the
early-return branch. -/
structure MarketData where
  ticker : Option TickerData
  trade_history : List TradeData
  timestamp : String
  deriving DecidableEq, Repr

/-- `SpreadData` dataclass (common_functions.py lines 36-40). -/
structure SpreadData where
  spread : Option ℚ
  deriving DecidableEq, Repr

/-- `SlippageData` dataclass (common_functions.py lines 43-47). -/
structure SlippageData where
  slippage : Option ℚ
  deriving DecidableEq, Repr

/-- `CalcData` dataclass (common_functions.py lines 50-57). -/
structure CalcData where
  spread : SpreadData
  slippage : SlippageData
  volume : Nat
  timestamp : String
  deriving DecidableEq, Repr

/-- The `for trade in trade_history` loop of `calculate_spread_and_slippage`
(common_functions.py lines 95-102), with the two loop variables `slippage`
(last computed raw value, `None` before the first iteration) and
`slippage_list` as accumulators.  Each iteration computes
`slippage = (best_ask - trade.price) / trade.price * 100` (raising
`ZeroDivisionError` when `trade.price == 0`) and appends it to the list
when `slippage <= 2.0`. -/
def slippage_loop (best_ask : ℚ) (slippage : Option ℚ) (slippage_list : List ℚ) :
    List TradeData → Except PyError (Option ℚ × List ℚ)
  | [] => .ok (slippage, slippage_list)
  | trade :: rest =>
    match pydiv (best_ask - trade.price) trade.price with
    | .error e => .error e
    | .ok q =>
      let s := q * 100
      slippage_loop best_ask (some s)
        (if s ≤ 2 then slippage_list ++ [s] else slippage_list) rest

/-- `calculate_spread_and_slippage` (common_functions.py lines 60-111).
The `market` and `source` parameters are used only for logging and are
omitted.  The `if not ticker_data` test takes the early branch exactly when
`ticker` is `None` (a `TickerData` dataclass instance is always truthy).
Then `spread = (best_ask - best_bid) / best_ask * 100` (a `ZeroDivisionError`
when `best_ask == 0`), the trade loop runs, and finally
`if slippage is not None and len(slippage_list) > 0` replaces `slippage`
by `sum(slippage_list) / len(slippage_list)`. -/
def calculate_spread_and_slippage (market_data : MarketData) :
    Except PyError CalcData :=
  match market_data.ticker with
  | none =>
    .ok { spread := { spread := none }, slippage := { slippage := none },
          volume := market_data.trade_history.length,
          timestamp := market_data.timestamp }
  | some ticker_data =>
    match pydiv (ticker_data.best_ask - ticker_data.best_bid) ticker_data.best_ask with
    | .error e => .error e
    | .ok q =>
      let spread := q * 100
      match slippage_loop ticker_data.best_ask none [] market_data.trade_history with
      | .error e => .error e
      | .ok (slippage, slippage_list) =>
        let slippage :=
          if slippage.isSome ∧ 0 < slippage_list.length then
            some (slippage_list.sum / (slippage_list.length : ℚ))
          else slippage
        .ok { spread := { spread := some spread },
              slippage := { slippage := slippage },
              volume := market_data.trade_history.length,
              timestamp := market_data.timestamp }

/-- The raw per-trade slippage value `(best_ask - price) / price * 100`
(specification-level shorthand for the expression on
common_functions.py lines 98-100, for a nonzero price). -/
def svalue (best_ask price : ℚ) : ℚ := (best_ask - price) / price * 100

/-- The value the loop variable `slippage` holds after the trade loop:
the `svalue` of the last trade, or the initial accumulator when there are
no trades. -/
def lastSlippage (best_ask : ℚ) (acc : Option ℚ) : List TradeData → Option ℚ
  | [] => acc
  | trade :: rest => lastSlippage best_ask (some (svalue best_ask trade.price)) rest

/-- The per-trade slippage values that qualify for averaging: those with
`svalue ≤ 2` (the `slippage <= 2.0` filter on common_functions.py
line 101), in trade order. -/
def qualifyingSlippages (best_ask : ℚ) (trades : List TradeData) : List ℚ :=
  (trades.map fun trade => svalue best_ask trade.price).filter fun s => s ≤ 2

/-- Characterisation of the slippage field returned by
`calculate_spread_and_slippage` when every trade price is nonzero:
the mean of the qualifying (`svalue ≤ 2`) values when at least one trade
qualifies, otherwise the raw `svalue` of the last trade, and `none` when
there are no trades at all. -/
def slippageSpec (best_ask : ℚ) (trades : List TradeData) : Option ℚ :=
  match lastSlippage best_ask none trades with
  | none => none
  | some last =>
    if 0 < (qualifyingSlippages best_ask trades).length then
      some ((qualifyingSlippages best_ask trades).sum /
        ((qualifyingSlippages best_ask trades).length : ℚ))
    else some last

/-! ## Sampling scheduler (`get_datapoint`) -/

/-- One emitted batch: `{"source": ..., "data": {market: CalcData}}`
(common_functions.py lines 201-209, kucoin.py lines 124-130).  The `data`
dict is modelled as an association list in market order. -/
structure Batch where
  source : String
  data : List (String × CalcData)
  deriving DecidableEq, Repr

/-- The dict comprehension
`{market: calculate_spread_and_slippage(...) for market, market_data in self.market_data.items()}`:
computes the metrics for every subscribed market in order; an exception in
any entry propagates. -/
def compute_batch : List (String × MarketData) → Except PyError (List (String × CalcData))
  | [] => .ok []
  | p :: rest =>
    match calculate_spread_and_slippage p.2 with
    | .error e => .error e
    | .ok c =>
      match compute_batch rest with
      | .error e => .error e
      | .ok out => .ok ((p.1, c) :: out)

/-- One iteration of `ExchangeBase.get_datapoint` (common_functions.py
lines 194-213): stamp the timestamp on every `MarketData`, compute the batch,
yield it, then set every `ticker` to `None` and clear every `trade_history`.
Returns the yielded batch together with the post-iteration state. -/
def exchangeBaseTick (source timestamp : String) (st : List (String × MarketData)) :
    Except PyError (Batch × List (String × MarketData)) :=
  let stamped := st.map fun p => (p.1, { p.2 with timestamp := timestamp })
  match compute_batch stamped with
  | .error e => .error e
  | .ok data =>
    .ok ({ source := source, data := data },
         stamped.map fun p => (p.1, { p.2 with ticker := none, trade_history := [] }))

/-- One iteration of `Kucoin.get_datapoint` (kucoin.py lines 118-131): same
shape with source `"kucoin"`, but only `trade_history` is cleared — the
ticker is kept.  (In the Python source the call on kucoin.py line 127 in
fact passes only 1 of the 3 required positional arguments of
`calculate_spread_and_slippage`, a `TypeError` on every firing; the
embedding models the call with the intended arity, which still raises
`ZeroDivisionError` on the initial state, see below.) -/
def kucoinTick (timestamp : String) (st : List (String × MarketData)) :
    Except PyError (Batch × List (String × MarketData)) :=
  let stamped := st.map fun p => (p.1, { p.2 with timestamp := timestamp })
  match compute_batch stamped with
  | .error e => .error e
  | .ok data =>
    .ok ({ source := "kucoin", data := data },
         stamped.map fun p => (p.1, { p.2 with trade_history := [] }))

/-- `Kucoin.__init__` per-market state (kucoin.py line 24):
`MarketData(TickerData(0, 0), [], "")` — note the ticker is present (and
truthy) with `best_ask = 0`, not `None`. -/
def kucoinInitMarketData (markets : List String) : List (String × MarketData) :=
  markets.map fun m =>
    (m, { ticker := some { best_ask := 0, best_bid := 0 }, trade_history := [], timestamp := "" })

/-- `ExchangeBase.__init__` per-market state (common_functions.py line 134):
`MarketData(None, [], "")`. -/
def exchangeBaseInitMarketData (markets : List String) : List (String × MarketData) :=
  markets.map fun m => (m, { ticker := none, trade_history := [], timestamp := "" })

/-! ## KuCoin connect handshake -/

/-- An inbound WebSocket frame, abstracted to the only field the handshake
inspects: `data.get("type")`. -/
structure KucoinFrame where
  type : String
  deriving DecidableEq, Repr

/-- `_wait_for_message_type` (kucoin.py lines 90-98, identical to
common_functions.py lines 162-183): keep receiving frames, discarding every
frame whose `type` does not match, until a matching frame arrives; a timeout
— modelled as the frame stream being exhausted without a match — yields
`None`.  Returns the matching frame and the remaining stream. -/
def wait_for_message_type (message_type : String) :
    List KucoinFrame → Option (KucoinFrame × List KucoinFrame)
  | [] => none
  | f :: rest =>
    if f.type = message_type then some (f, rest)
    else wait_for_message_type message_type rest

/-- Outcome of `Kucoin._connect`: the returned boolean, plus whether
`asyncio.create_task(self._ticker_update())` (the decode loop, kucoin.py
line 86) was started. -/
structure ConnectResult where
  success : Bool
  decodeLoopStarted : Bool
  deriving DecidableEq, Repr

/-- `Kucoin._connect` (kucoin.py lines 27-88).  `status` and `respToken` are
the bootstrap HTTP response; `frames` is the inbound frame stream after the
auth payload is sent.  The token is stored only on a 200 response (else the
initial `""` persists and `_connect` returns `False`); then the handshake
waits for a `"welcome"` frame and, after each of the two subscription
requests, for an `"ack"` frame, returning `False` on any timeout; only when
all three waits succeed is the decode-loop task created and `True`
returned. -/
def kucoinConnect (status : Nat) (respToken : String) (frames : List KucoinFrame) :
    ConnectResult :=
  let public_token := if status = 200 then respToken else ""
  if public_token = "" then { success := false, decodeLoopStarted := false }
  else
    match wait_for_message_type "welcome" frames with
    | none => { success := false, decodeLoopStarted := false }
    | some (_, rest1) =>
      match wait_for_message_type "ack" rest1 with
      | none => { success := false, decodeLoopStarted := false }
      | some (_, rest2) =>
        match wait_for_message_type "ack" rest2 with
        | none => { success := false, decodeLoopStarted := false }
        | some _ => { success := true, decodeLoopStarted := true }

/-! ## Persistence sink (`db_functions.py`) -/

/-- One row of the `CalcDataModel` table (db_functions.py lines 8-17); the
timestamp is kept as the ISO string that `datetime.fromisoformat`
successfully parsed. -/
structure CalcDataModelRow where
  exchange : String
  market : String
  spread : Option ℚ
  slippage : Option ℚ
  volume : Nat
  timestamp : String
  deriving DecidableEq, Repr

/-- Python dict subscription `translation[market]` (db_functions.py line 74):
raises `KeyError` when the key is absent. -/
def dict_getitem (translation : List (String × String)) (key : String) :
    Except PyError String :=
  match translation.lookup key with
  | none => .error (.keyError key)
  | some v => .ok v

/-- `datetime.fromisoformat(calc_data.timestamp)` (db_functions.py line 78).
The parser itself is the Python standard library, external to this
repository; the parameter `isoOk` abstracts its success condition: the call
returns the parsed timestamp when `isoOk` holds of the string and raises
`ValueError` otherwise.  The theorems below quantify over an arbitrary
`isoOk`, so they hold in particular for the actual stdlib condition. -/
def datetime_fromisoformat (isoOk : String → Bool) (s : String) :
    Except PyError String :=
  if isoOk s then .ok s else .error (.valueError s)

/-- The `for market, calc_data in data.items()` loop of `insert_calc_data`
(db_functions.py lines 70-80), collecting the rows passed to `session.add`.
`calc_data.slippage` is a `SlippageData` dataclass instance and hence always
truthy, so line 76 always reads `calc_data.slippage.slippage`.  The keyword
arguments of `CalcDataModel(...)` evaluate left to right, so for each record
`translation[market]` (line 74, a `KeyError` when the entry is missing) is
evaluated before `datetime.fromisoformat(calc_data.timestamp)` (line 78, a
`ValueError` when the string is not a valid ISO timestamp); either exception
aborts the loop and propagates. -/
def insert_rows (isoOk : String → Bool) (exchange : String)
    (translation : List (String × String)) :
    List (String × CalcData) → Except PyError (List CalcDataModelRow)
  | [] => .ok []
  | p :: rest =>
    match dict_getitem translation p.1 with
    | .error e => .error e
    | .ok tm =>
      match datetime_fromisoformat isoOk p.2.timestamp with
      | .error e => .error e
      | .ok ts =>
        match insert_rows isoOk exchange translation rest with
        | .error e => .error e
        | .ok rows =>
          .ok ({ exchange := exchange, market := tm, spread := p.2.spread.spread,
                 slippage := p.2.slippage.slippage, volume := p.2.volume,
                 timestamp := ts } :: rows)

/-- `insert_calc_data` (db_functions.py lines 39-80) for well-typed inputs
(`exchange` a string, `data` a dict): the `isinstance` guard on lines 60-66
is then identically false and the row loop runs. -/
def insert_calc_data (isoOk : String → Bool) (exchange : String)
    (data : List (String × CalcData)) (translation : List (String × String)) :
    Except PyError (List CalcDataModelRow) :=
  insert_rows isoOk exchange translation data

/-! ## Characterisation lemmas -/

/-- When every trade price is nonzero the trade loop succeeds, the loop
variable `slippage` ends as `lastSlippage` and `slippage_list` collects,
in order, exactly the `svalue`s that are `≤ 2`. -/
theorem slippage_loop_eq (best_ask : ℚ) :
    ∀ (trades : List TradeData) (acc : Option ℚ) (accList : List ℚ),
    (∀ tr ∈ trades, tr.price ≠ 0) →
    slippage_loop best_ask acc accList trades =
      .ok (lastSlippage best_ask acc trades, accList ++ qualifyingSlippages best_ask trades)
  | [], acc, accList, _ => by simp [slippage_loop, lastSlippage, qualifyingSlippages]
  | trade :: rest, acc, accList, hp => by
    have hp0 : trade.price ≠ 0 := hp trade (List.mem_cons_self _ _)
    have hrest : ∀ tr ∈ rest, tr.price ≠ 0 := fun tr h => hp tr (List.mem_cons_of_mem _ h)
    simp only [slippage_loop, pydiv, if_neg hp0]
    rw [slippage_loop_eq best_ask rest _ _ hrest]
    simp only [lastSlippage, qualifyingSlippages, svalue, List.map_cons, List.filter_cons]
    by_cases hc : (best_ask - trade.price) / trade.price * 100 ≤ 2 <;>
      simp [hc, List.append_assoc]

/-- The final value of the loop variable `slippage` is the `svalue` of the
last trade (or the initial accumulator when there are no trades). -/
theorem lastSlippage_eq (best_ask : ℚ) :
    ∀ (trades : List TradeData) (acc : Option ℚ),
    lastSlippage best_ask acc trades =
      match trades.getLast? with
      | none => acc
      | some tr => some (svalue best_ask tr.price)
  | [], acc => by simp [lastSlippage]
  | trade :: rest, acc => by
    rw [lastSlippage, lastSlippage_eq best_ask rest]
    cases rest with
    | nil => simp
    | cons b tl =>
      rw [List.getLast?_cons_cons]
      cases hg : (b :: tl).getLast? with
      | none => simp at hg
      | some tr => rfl

/-- Master characterisation of `calculate_spread_and_slippage` when the
ticker is present, `best_ask ≠ 0` and every trade price is nonzero. -/
theorem calculate_spread_and_slippage_eq (md : MarketData) (t : TickerData)
    (ht : md.ticker = some t) (ha : t.best_ask ≠ 0)
    (hp : ∀ tr ∈ md.trade_history, tr.price ≠ 0) :
    calculate_spread_and_slippage md =
      .ok { spread := { spread := some ((t.best_ask - t.best_bid) / t.best_ask * 100) },
            slippage := { slippage := slippageSpec t.best_ask md.trade_history },
            volume := md.trade_history.length,
            timestamp := md.timestamp } := by
  obtain ⟨tk, trades, ts⟩ := md
  simp only at ht hp ⊢
  subst ht
  simp only [calculate_spread_and_slippage, pydiv, if_neg ha]
  rw [slippage_loop_eq t.best_ask trades none [] hp]
  simp only [List.nil_append, slippageSpec]
  cases hl : lastSlippage t.best_ask none trades with
  | none => simp
  | some last =>
    by_cases hq : 0 < (qualifyingSlippages t.best_ask trades).length <;> simp [hq]

/-- A zero-price trade anywhere in the list makes the trade loop raise
`ZeroDivisionError`. -/
theorem slippage_loop_zero (best_ask : ℚ) :
    ∀ (trades : List TradeData) (acc : Option ℚ) (accList : List ℚ),
    (∃ tr ∈ trades, tr.price = 0) →
    slippage_loop best_ask acc accList trades = .error .zeroDivisionError
  | [], _, _, hz => by simp at hz
  | trade :: rest, acc, accList, hz => by
    by_cases h0 : trade.price = 0
    · simp [slippage_loop, pydiv, h0]
    · simp only [slippage_loop, pydiv, if_neg h0]
      obtain ⟨tr, htr, hprice⟩ := hz
      rcases List.mem_cons.mp htr with rfl | hmem
      · exact absurd hprice h0
      · exact slippage_loop_zero best_ask rest _ _ ⟨tr, hmem, hprice⟩

/-- When no frame in the stream has the expected type, the wait times out. -/
theorem wait_for_message_type_eq_none (message_type : String) :
    ∀ frames : List KucoinFrame, (∀ f ∈ frames, f.type ≠ message_type) →
    wait_for_message_type message_type frames = none
  | [], _ => rfl
  | f :: rest, h => by
    rw [wait_for_message_type, if_neg (h f (List.mem_cons_self _ _))]
    exact wait_for_message_type_eq_none message_type rest
      fun g hg => h g (List.mem_cons_of_mem _ hg)

/-- When every market of the batch has a translation entry and every
timestamp parses, the insert loop succeeds and stores one row per record. -/
theorem insert_rows_ok (isoOk : String → Bool) (exchange : String)
    (translation : List (String × String)) :
    ∀ data : List (String × CalcData),
    (∀ p ∈ data, (translation.lookup p.1).isSome) →
    (∀ p ∈ data, isoOk p.2.timestamp = true) →
    ∃ rows, insert_rows isoOk exchange translation data = .ok rows ∧
      rows.length = data.length
  | [], _, _ => ⟨[], rfl, rfl⟩
  | p :: rest, h, hts => by
    obtain ⟨v, hv⟩ := Option.isSome_iff_exists.mp (h p (List.mem_cons_self _ _))
    obtain ⟨rows, hrows, hlen⟩ := insert_rows_ok isoOk exchange translation rest
      (fun q hq => h q (List.mem_cons_of_mem _ hq))
      (fun q hq => hts q (List.mem_cons_of_mem _ hq))
    refine ⟨{ exchange := exchange, market := v, spread := p.2.spread.spread,
              slippage := p.2.slippage.slippage, volume := p.2.volume,
              timestamp := p.2.timestamp } :: rows, ?_, ?_⟩
    · rw [insert_rows, dict_getitem, hv, datetime_fromisoformat,
        if_pos (hts p (List.mem_cons_self _ _)), hrows]
    · simp [hlen]

/-- A record whose market has no translation entry makes the insert loop
raise a `KeyError`, provided the timestamps of the records processed before
it parse (a non-parsing earlier timestamp raises `ValueError` first). -/
theorem insert_rows_missing (isoOk : String → Bool) (exchange : String)
    (translation : List (String × String)) :
    ∀ data : List (String × CalcData),
    (∀ p ∈ data, isoOk p.2.timestamp = true) →
    (∃ p ∈ data, translation.lookup p.1 = none) →
    ∃ k, insert_rows isoOk exchange translation data = .error (.keyError k)
  | [], _, hz => by simp at hz
  | p :: rest, hts, hz => by
    cases hk : translation.lookup p.1 with
    | none => exact ⟨p.1, by rw [insert_rows, dict_getitem, hk]⟩
    | some v =>
      obtain ⟨q, hq, hqnone⟩ := hz
      rcases List.mem_cons.mp hq with rfl | hmem
      · rw [hk] at hqnone; cases hqnone
      · obtain ⟨k, hkrec⟩ := insert_rows_missing isoOk exchange translation rest
          (fun r hr => hts r (List.mem_cons_of_mem _ hr)) ⟨q, hmem, hqnone⟩
        refine ⟨k, ?_⟩
        rw [insert_rows, dict_getitem, hk, datetime_fromisoformat,
          if_pos (hts p (List.mem_cons_self _ _)), hkrec]

/-- A record whose market has no translation entry always crashes the insert
loop with some exception — a `KeyError` at that record, unless an earlier
record's timestamp fails to parse and a `ValueError` is raised first. -/
theorem insert_rows_missing_errors (isoOk : String → Bool) (exchange : String)
    (translation : List (String × String)) :
    ∀ data : List (String × CalcData),
    (∃ p ∈ data, translation.lookup p.1 = none) →
    ∃ e, insert_rows isoOk exchange translation data = .error e
  | [], hz => by simp at hz
  | p :: rest, hz => by
    cases hk : translation.lookup p.1 with
    | none => exact ⟨.keyError p.1, by rw [insert_rows, dict_getitem, hk]⟩
    | some v =>
      obtain ⟨q, hq, hqnone⟩ := hz
      rcases List.mem_cons.mp hq with rfl | hmem
      · rw [hk] at hqnone; cases hqnone
      · by_cases hts : isoOk p.2.timestamp = true
        · obtain ⟨e, he⟩ :=
            insert_rows_missing_errors isoOk exchange translation rest ⟨q, hmem, hqnone⟩
          exact ⟨e, by
            rw [insert_rows, dict_getitem, hk, datetime_fromisoformat, if_pos hts, he]⟩
        · exact ⟨.valueError p.2.timestamp, by
            rw [insert_rows, dict_getitem, hk, datetime_fromisoformat, if_neg hts]⟩

/-- When at least one trade qualifies, the returned slippage is the mean of
the qualifying values. -/
theorem slippageSpec_of_qual_ne_nil (best_ask : ℚ) (trades : List TradeData)
    (hq : qualifyingSlippages best_ask trades ≠ []) :
    slippageSpec best_ask trades =
      some ((qualifyingSlippages best_ask trades).sum /
        ((qualifyingSlippages best_ask trades).length : ℚ)) := by
  have htr : trades ≠ [] := by
    intro h; subst h; exact hq (by simp [qualifyingSlippages])
  rw [slippageSpec, lastSlippage_eq]
  cases hg : trades.getLast? with
  | none => exact absurd (List.getLast?_eq_none_iff.mp hg) htr
  | some tr => simp [List.length_pos.mpr hq]

/-- When no trade qualifies and the trade list is nonempty, the returned
slippage is the raw `svalue` of the last trade. -/
theorem slippageSpec_of_no_qualifying (best_ask : ℚ) (trades : List TradeData)
    (tlast : TradeData) (hg : trades.getLast? = some tlast)
    (hq : qualifyingSlippages best_ask trades = []) :
    slippageSpec best_ask trades = some (svalue best_ask tlast.price) := by
  rw [slippageSpec, lastSlippage_eq, hg, hq]
  simp

/-! ## Claim theorems -/

/-- C1 (counterexample): at a MarketState whose TopOfBook is present with
`bestAsk = 0` (and `bestBid = 1`), the metrics computation does not return a
spread at all — it raises `ZeroDivisionError` — so the claim as universally
stated over all present TopOfBooks fails. -/
theorem c1_zero_ask_counterexample :
    calculate_spread_and_slippage
      { ticker := some { best_ask := 0, best_bid := 1 },
        trade_history := [], timestamp := "" } =
      .error .zeroDivisionError := by decide

/-- C1 (amended): for every MarketState whose TopOfBook is present with
`bestAsk ≠ 0` (and all trade prices nonzero, so that the computation
succeeds), the returned spread is exactly
`(bestAsk - bestBid) / bestAsk * 100`, with no clamping, and this value is
negative when the book is crossed (`bestBid > bestAsk > 0`). -/
theorem c1_spread_exact_formula (md : MarketData) (t : TickerData)
    (ht : md.ticker = some t) (ha : t.best_ask ≠ 0)
    (hp : ∀ tr ∈ md.trade_history, tr.price ≠ 0) :
    ∃ c, calculate_spread_and_slippage md = .ok c ∧
      c.spread.spread = some ((t.best_ask - t.best_bid) / t.best_ask * 100) ∧
      (0 < t.best_ask → t.best_ask < t.best_bid →
        (t.best_ask - t.best_bid) / t.best_ask * 100 < 0) := by
  refine ⟨_, calculate_spread_and_slippage_eq md t ht ha hp, rfl, fun hpos hcross => ?_⟩
  have hnum : t.best_ask - t.best_bid < 0 := by linarith
  have hdiv : (t.best_ask - t.best_bid) / t.best_ask < 0 := div_neg_of_neg_of_pos hnum hpos
  linarith

/-- C1 witness: `bestAsk=100, bestBid=99` gives spread exactly
`(100 - 99) / 100 * 100`. -/
theorem c1_spread_exact_formula_witness :
    ∃ c, calculate_spread_and_slippage
        { ticker := some { best_ask := 100, best_bid := 99 },
          trade_history := [], timestamp := "" } = .ok c ∧
      c.spread.spread = some (((100 : ℚ) - 99) / 100 * 100) ∧
      (0 < (100 : ℚ) → (100 : ℚ) < 99 → ((100 : ℚ) - 99) / 100 * 100 < 0) :=
  c1_spread_exact_formula
    { ticker := some { best_ask := 100, best_bid := 99 },
      trade_history := [], timestamp := "" }
    { best_ask := 100, best_bid := 99 } rfl (by decide) (by decide)

/-- C2: for every MarketState whose TopOfBook is absent, the metrics
computation returns `spread = None`, `slippage = None` and a trade count
equal to the length of the accumulated trade sequence. -/
theorem c2_absent_ticker_defaults (md : MarketData) (h : md.ticker = none) :
    calculate_spread_and_slippage md =
      .ok { spread := { spread := none }, slippage := { slippage := none },
            volume := md.trade_history.length, timestamp := md.timestamp } := by
  obtain ⟨tk, trades, ts⟩ := md
  simp only at h
  subst h
  rfl

/-- C2 witness: absent ticker with one accumulated trade gives
`(None, None, 1)`. -/
theorem c2_absent_ticker_defaults_witness :
    calculate_spread_and_slippage
      { ticker := none, trade_history := [{ price := 5 }], timestamp := "t" } =
      .ok { spread := { spread := none }, slippage := { slippage := none },
            volume := 1, timestamp := "t" } :=
  c2_absent_ticker_defaults
    { ticker := none, trade_history := [{ price := 5 }], timestamp := "t" } rfl

/-- C4 (code bug): for a MarketState whose TopOfBook has `bestAsk = 0` —
exactly the per-market state `MarketData(TickerData(0, 0), [], "")` that
`Kucoin.__init__` creates (kucoin.py line 24) — the metrics computation does
not return `(None, None)`: it raises `ZeroDivisionError` at the spread
division, because the guard `if not ticker_data` (common_functions.py
line 79, whose comment on line 80 says it handles the `best_ask` zero case)
only catches an absent ticker, a dataclass instance being always truthy. -/
theorem c4_zero_ask_raises :
    calculate_spread_and_slippage
      { ticker := some { best_ask := 0, best_bid := 0 },
        trade_history := [], timestamp := "" } =
      .error .zeroDivisionError := by decide

/-- C5 (counterexample): a trade tick with `price == 0` is not skipped:
with TopOfBook present (`bestAsk = 1`) and the single trade priced `0`,
the metrics computation divides by the zero price and raises
`ZeroDivisionError`, so the computation is not total for such inputs. -/
theorem c5_zero_price_counterexample :
    calculate_spread_and_slippage
      { ticker := some { best_ask := 1, best_bid := 1 },
        trade_history := [{ price := 0 }], timestamp := "" } =
      .error .zeroDivisionError := by decide

/-- C5 (amended): for every MarketState with TopOfBook present,
`bestAsk ≠ 0`, and some trade tick with `price == 0` in the trade sequence,
the metrics computation raises `ZeroDivisionError`: the zero-price trade is
not skipped and the computation is not total. -/
theorem c5_zero_price_raises (md : MarketData) (t : TickerData)
    (ht : md.ticker = some t) (ha : t.best_ask ≠ 0)
    (hz : ∃ tr ∈ md.trade_history, tr.price = 0) :
    calculate_spread_and_slippage md = .error .zeroDivisionError := by
  obtain ⟨tk, trades, ts⟩ := md
  simp only at ht hz
  subst ht
  simp only [calculate_spread_and_slippage, pydiv, if_neg ha]
  rw [slippage_loop_zero t.best_ask trades none [] hz]

/-- C3 (counterexample): a trade priced far below the ask does NOT qualify.
With `bestAsk = 100` and trades priced `[100, 1]`, the trade at price `1`
has raw slippage `svalue 100 1 = 9900 > 2` and is excluded, so the returned
slippage is `0` (the mean of the single qualifying value), not the mean
`(0 + 9900) / 2` that would result if the far-below-ask trade qualified. -/
theorem c3_far_below_ask_counterexample :
    calculate_spread_and_slippage
      { ticker := some { best_ask := 100, best_bid := 99 },
        trade_history := [{ price := 100 }, { price := 1 }], timestamp := "" } =
      .ok { spread := { spread := some 1 }, slippage := { slippage := some 0 },
            volume := 2, timestamp := "" } ∧
    svalue 100 1 = 9900 ∧ ¬ svalue 100 1 ≤ 2 ∧ (0 : ℚ) ≠ (0 + 9900) / 2 := by decide

/-- C3 (amended): with TopOfBook present, `bestAsk ≠ 0` and all trade prices
nonzero, a trade qualifies exactly when its `svalue ≤ 2` — there is no lower
bound, so a trade priced far ABOVE the ask (arbitrarily negative `svalue`)
still qualifies, while a trade priced far below the ask has `svalue > 2` and
is excluded; when at least one trade qualifies the returned slippage is the
arithmetic mean of the qualifying values, and for an empty trade list the
returned slippage is `None` while the spread is still computed. -/
theorem c3_qualifying_filter_and_mean (md : MarketData) (t : TickerData)
    (ht : md.ticker = some t) (ha : t.best_ask ≠ 0)
    (hp : ∀ tr ∈ md.trade_history, tr.price ≠ 0) :
    ∃ c, calculate_spread_and_slippage md = .ok c ∧
      (∀ tr ∈ md.trade_history,
        (svalue t.best_ask tr.price ∈ qualifyingSlippages t.best_ask md.trade_history ↔
          svalue t.best_ask tr.price ≤ 2)) ∧
      (qualifyingSlippages t.best_ask md.trade_history ≠ [] →
        c.slippage.slippage =
          some ((qualifyingSlippages t.best_ask md.trade_history).sum /
            ((qualifyingSlippages t.best_ask md.trade_history).length : ℚ))) ∧
      (md.trade_history = [] →
        c.slippage.slippage = none ∧
        c.spread.spread = some ((t.best_ask - t.best_bid) / t.best_ask * 100)) := by
  refine ⟨_, calculate_spread_and_slippage_eq md t ht ha hp,
    fun tr htr => ?_, fun hq => ?_, fun h0 => ?_⟩
  · rw [qualifyingSlippages, List.mem_filter]
    constructor
    · intro hmem
      simpa using hmem.2
    · intro hle
      exact ⟨List.mem_map_of_mem _ htr, by simpa using hle⟩
  · exact slippageSpec_of_qual_ne_nil t.best_ask md.trade_history hq
  · constructor
    · rw [h0]; rfl
    · rfl

/-- C3 witness: one qualifying trade at the ask price gives slippage `0`. -/
theorem c3_qualifying_filter_and_mean_witness :
    ∃ c, calculate_spread_and_slippage
        { ticker := some { best_ask := 100, best_bid := 99 },
          trade_history := [{ price := 100 }], timestamp := "" } = .ok c ∧
      (∀ tr ∈ [({ price := 100 } : TradeData)],
        (svalue 100 tr.price ∈ qualifyingSlippages 100 [{ price := 100 }] ↔
          svalue 100 tr.price ≤ 2)) ∧
      (qualifyingSlippages 100 [{ price := 100 }] ≠ [] →
        c.slippage.slippage =
          some ((qualifyingSlippages 100 [{ price := 100 }]).sum /
            ((qualifyingSlippages 100 [{ price := 100 }]).length : ℚ))) ∧
      ([({ price := 100 } : TradeData)] = [] →
        c.slippage.slippage = none ∧
        c.spread.spread = some (((100 : ℚ) - 99) / 100 * 100)) :=
  c3_qualifying_filter_and_mean
    { ticker := some { best_ask := 100, best_bid := 99 },
      trade_history := [{ price := 100 }], timestamp := "" }
    { best_ask := 100, best_bid := 99 } rfl (by decide) (by decide)

/-- C10: with TopOfBook present, a nonempty trade list in which every trade
has a nonzero price and a raw slippage value strictly greater than `2`
(so no trade qualifies), the returned slippage is the raw `svalue` of the
LAST trade — a value greater than `2` — and not `None`. -/
theorem c10_no_qualifying_returns_last_raw (md : MarketData) (t : TickerData)
    (ht : md.ticker = some t) (hne : md.trade_history ≠ [])
    (hp : ∀ tr ∈ md.trade_history, tr.price ≠ 0)
    (hs : ∀ tr ∈ md.trade_history, 2 < svalue t.best_ask tr.price) :
    ∃ c tlast, md.trade_history.getLast? = some tlast ∧
      calculate_spread_and_slippage md = .ok c ∧
      c.slippage.slippage = some (svalue t.best_ask tlast.price) ∧
      2 < svalue t.best_ask tlast.price := by
  obtain ⟨tr0, htr0⟩ := List.exists_mem_of_ne_nil md.trade_history hne
  have ha : t.best_ask ≠ 0 := by
    intro h0
    have h1 := hs tr0 htr0
    rw [svalue, h0, zero_sub, neg_div, div_self (hp tr0 htr0)] at h1
    norm_num at h1
  have hqnil : qualifyingSlippages t.best_ask md.trade_history = [] := by
    rw [qualifyingSlippages, List.filter_eq_nil_iff]
    intro s hsmem
    obtain ⟨tr, htrmem, rfl⟩ := List.mem_map.mp hsmem
    simpa using not_le_of_lt (hs tr htrmem)
  cases hg : md.trade_history.getLast? with
  | none => exact absurd (List.getLast?_eq_none_iff.mp hg) hne
  | some tlast =>
    refine ⟨_, tlast, rfl, calculate_spread_and_slippage_eq md t ht ha hp, ?_, ?_⟩
    · exact slippageSpec_of_no_qualifying t.best_ask md.trade_history tlast hg hqnil
    · exact hs tlast (List.mem_of_getLast?_eq_some hg)

/-- C10 witness: the single trade priced `10` against ask `100` has raw
slippage `900 > 2`, does not qualify, and is returned as-is. -/
theorem c10_no_qualifying_returns_last_raw_witness :
    ∃ c tlast,
      [({ price := 10 } : TradeData)].getLast? = some tlast ∧
      calculate_spread_and_slippage
        { ticker := some { best_ask := 100, best_bid := 99 },
          trade_history := [{ price := 10 }], timestamp := "" } = .ok c ∧
      c.slippage.slippage = some (svalue 100 tlast.price) ∧
      2 < svalue 100 tlast.price :=
  c10_no_qualifying_returns_last_raw
    { ticker := some { best_ask := 100, best_bid := 99 },
      trade_history := [{ price := 10 }], timestamp := "" }
    { best_ask := 100, best_bid := 99 } rfl (by decide) (by decide) (by decide)

/-- C5 witness: a zero-priced trade after a normal one still raises. -/
theorem c5_zero_price_raises_witness :
    calculate_spread_and_slippage
      { ticker := some { best_ask := 2, best_bid := 1 },
        trade_history := [{ price := 3 }, { price := 0 }], timestamp := "" } =
      .error .zeroDivisionError :=
  c5_zero_price_raises _ _ rfl (by decide) ⟨{ price := 0 }, by decide, rfl⟩

/-- C6: after every completed sampling-scheduler tick — for either connector
variant — each market in the post-tick state has an empty trade sequence,
regardless of how many trades had accumulated before the tick. -/
theorem c6_trades_cleared_after_tick (source timestamp : String)
    (st post : List (String × MarketData)) (b : Batch)
    (h : exchangeBaseTick source timestamp st = .ok (b, post) ∨
         kucoinTick timestamp st = .ok (b, post)) :
    ∀ p ∈ post, p.2.trade_history = [] := by
  rcases h with h | h
  · simp only [exchangeBaseTick] at h
    cases hcb : compute_batch (st.map fun p => (p.1, { p.2 with timestamp := timestamp })) with
    | error e => rw [hcb] at h; simp at h
    | ok data =>
      rw [hcb] at h
      simp only [Except.ok.injEq, Prod.mk.injEq] at h
      obtain ⟨-, hpost⟩ := h
      subst hpost
      intro p hp
      obtain ⟨q, -, rfl⟩ := List.mem_map.mp hp
      rfl
  · simp only [kucoinTick] at h
    cases hcb : compute_batch (st.map fun p => (p.1, { p.2 with timestamp := timestamp })) with
    | error e => rw [hcb] at h; simp at h
    | ok data =>
      rw [hcb] at h
      simp only [Except.ok.injEq, Prod.mk.injEq] at h
      obtain ⟨-, hpost⟩ := h
      subst hpost
      intro p hp
      obtain ⟨q, -, rfl⟩ := List.mem_map.mp hp
      rfl

/-- C6 witness: a tick of the base scheduler on a one-market state with one
accumulated trade leaves the trade sequence empty. -/
theorem c6_trades_cleared_after_tick_witness :
    (("m", ({ ticker := none, trade_history := [], timestamp := "t" } : MarketData))).2.trade_history
      = [] :=
  c6_trades_cleared_after_tick "binance" "t"
    [("m", { ticker := none, trade_history := [{ price := 5 }], timestamp := "" })]
    [("m", { ticker := none, trade_history := [], timestamp := "t" })]
    { source := "binance",
      data := [("m", { spread := { spread := none }, slippage := { slippage := none },
                       volume := 1, timestamp := "t" })] }
    (Or.inl (by decide))
    ("m", { ticker := none, trade_history := [], timestamp := "t" })
    (List.mem_cons_self _ _)

/-- C7 (code bug): the sampling scheduler of the KuCoin variant does not
emit a batch without error.  Its `get_datapoint` calls
`calculate_spread_and_slippage(market_data)` with 1 of the 3 required
positional arguments (kucoin.py line 127), a `TypeError` on every firing;
and even modelled with the intended arity, its very first firing raises
`ZeroDivisionError`, because `Kucoin.__init__` seeds every market with
`TickerData(0, 0)` (kucoin.py line 24). -/
theorem c7_kucoin_first_tick_raises :
    kucoinTick "2024-01-01T00:00:00" (kucoinInitMarketData ["BTC-USDT"]) =
      .error .zeroDivisionError := by decide

/-- C8: for the handshake variant, when the bootstrap call succeeds
(status 200, nonempty token) but no "welcome" frame ever arrives before the
timeout, `connect()` returns failure and the decode loop is never
started. -/
theorem c8_welcome_timeout_fails (status : Nat) (respToken : String)
    (frames : List KucoinFrame) (hstatus : status = 200) (htoken : respToken ≠ "")
    (hwelcome : ∀ f ∈ frames, f.type ≠ "welcome") :
    kucoinConnect status respToken frames =
      { success := false, decodeLoopStarted := false } := by
  subst hstatus
  simp only [kucoinConnect, if_pos rfl, if_neg htoken,
    wait_for_message_type_eq_none "welcome" frames hwelcome]
  split <;> rfl

/-- C8 witness: only non-"welcome" frames arrive, so the handshake fails
with the decode loop never started. -/
theorem c8_welcome_timeout_fails_witness :
    kucoinConnect 200 "token123" [{ type := "ack" }, { type := "pong" }] =
      { success := false, decodeLoopStarted := false } :=
  c8_welcome_timeout_fails 200 "token123" [{ type := "ack" }, { type := "pong" }]
    rfl (by decide) (by decide)

/-- C9 (counterexample): a batch record whose market has NO translation
entry is not rejected-and-skipped: `translation[market]` raises `KeyError`,
which propagates out of the persistence sink.  The `market=` keyword of
`CalcDataModel(...)` is evaluated before the `timestamp=` keyword, so the
`KeyError` fires even though every timestamp would parse (here `isoOk` is
instantiated to accept every string). -/
theorem c9_missing_translation_counterexample :
    insert_calc_data (fun _ => true) "kucoin"
      [("BTC-USDT", { spread := { spread := some 1 }, slippage := { slippage := none },
                      volume := 0, timestamp := "2024-01-01T00:00:00" })] [] =
      .error (.keyError "BTC-USDT") := by decide

/-- C9 (amended): for any success condition `isoOk` of the external
`datetime.fromisoformat` parser — when every market of the batch has a
translation entry and every timestamp parses, the persistence sink stores
one record per market; when some market has no translation entry and all
timestamps parse, the sink raises a `KeyError`; and a missing translation
entry makes the sink raise some exception in every case (the record is not
silently rejected — the error propagates and the pipeline is not
protected). -/
theorem c9_translation_behavior (isoOk : String → Bool) (exchange : String)
    (data : List (String × CalcData)) (translation : List (String × String)) :
    ((∀ p ∈ data, (translation.lookup p.1).isSome) →
     (∀ p ∈ data, isoOk p.2.timestamp = true) →
      ∃ rows, insert_calc_data isoOk exchange data translation = .ok rows ∧
        rows.length = data.length) ∧
    ((∀ p ∈ data, isoOk p.2.timestamp = true) →
     (∃ p ∈ data, translation.lookup p.1 = none) →
      ∃ k, insert_calc_data isoOk exchange data translation = .error (.keyError k)) ∧
    ((∃ p ∈ data, translation.lookup p.1 = none) →
      ∃ e, insert_calc_data isoOk exchange data translation = .error e) :=
  ⟨insert_rows_ok isoOk exchange translation data,
   insert_rows_missing isoOk exchange translation data,
   insert_rows_missing_errors isoOk exchange translation data⟩

/-- C9 witness: a fully-translated one-record batch whose timestamp is a
valid ISO string is stored. -/
theorem c9_translation_behavior_witness :
    ∃ rows, insert_calc_data (fun s => s = "2024-01-01T00:00:00") "kucoin"
        [("BTC-USDT", { spread := { spread := some 1 }, slippage := { slippage := some 0 },
                        volume := 2, timestamp := "2024-01-01T00:00:00" })]
        [("BTC-USDT", "BTC/USDT")] = .ok rows ∧ rows.length = 1 :=
  (c9_translation_behavior (fun s => s = "2024-01-01T00:00:00") "kucoin"
    [("BTC-USDT", { spread := { spread := some 1 }, slippage := { slippage := some 0 },
                    volume := 2, timestamp := "2024-01-01T00:00:00" })]
    [("BTC-USDT", "BTC/USDT")]).1 (by decide) (by decide)

end KaironExercise
